import Mathlib

/-!
Verification of the `UploadWizard` document-intake orchestrator
(`src/components/UploadWizard.jsx` of smsf-allocation-performance).

The component keeps three per-slot maps (`uploadStatus`, `parsedData`,
`errors`) plus a `currentStep` counter, and reacts to two events:
`handleFileUpload(file, error, stepKey)` and `handleReset(stepKey)`.
External collaborators (`extractTextFromPDF`, `identifyReportType`,
`parseReport`) are modelled as data attached to the submitted file
(`FileSpec`): each submission carries the outcome the collaborator would
produce for it.  A step returns the successor state, the list of emitted
notifications (`onPartialData` / `onComplete`) and the list of
collaborator calls actually made, so "the parser is never invoked" is a
statement about the call list.

Each `handleFileUpload` invocation is modelled as one atomic step (the
transient `processing` status set at its start is captured by the
`beginProcessing` helper, which the step function goes through).  The
step function is total, which reflects the source's `try`/`catch`: no
exception escapes the handler.
-/

namespace UploadWizard

/-- The two configured slot keys (the `STEPS` configuration). -/
inductive SlotKey
  | asset_allocation
  | performance
deriving DecidableEq, Repr

/-- Slot status values.  The source stores JS strings
`'idle' | 'processing' | 'success' | 'error'`, and `handleReset`
additionally writes the JS value `null`, modelled by `nullStatus`. -/
inductive Status
  | idle
  | processing
  | success
  | error
  | nullStatus
deriving DecidableEq, Repr

/-- Structured payload produced by `parseReport` (opaque to the
orchestrator; modelled as a token). -/
abbrev Data := Nat

/-- A map indexed by the two slot keys, mirroring the JS objects
`{ asset_allocation: _, performance: _ }`. -/
structure SlotMap (α : Type) where
  asset_allocation : α
  performance : α
deriving DecidableEq, Repr

def SlotMap.get {α : Type} (m : SlotMap α) : SlotKey → α
  | .asset_allocation => m.asset_allocation
  | .performance => m.performance

def SlotMap.set {α : Type} (m : SlotMap α) : SlotKey → α → SlotMap α
  | .asset_allocation, a => { m with asset_allocation := a }
  | .performance, a => { m with performance := a }

/-- Expected type of each slot, from the `STEPS` configuration. -/
def expectedType : SlotKey → String
  | .asset_allocation => "asset_allocation"
  | .performance => "performance"

/-- Display title of each slot, from the `STEPS` configuration. -/
def title : SlotKey → String
  | .asset_allocation => "Asset Allocation Report"
  | .performance => "Performance Report"

/-- Result of `identifyReportType`: a type label (possibly `null`) and a
human-readable name (possibly `null`). -/
structure Identification where
  type : Option String
  name : Option String
deriving DecidableEq, Repr

deriving instance DecidableEq for Except

/-- The behaviour of the external pipeline on one submitted file:
what `extractTextFromPDF` yields (`.error msg` = the promise rejects),
what `identifyReportType` returns on the extracted text (`none` = the JS
value `null`), and what `parseReport` yields. -/
structure FileSpec where
  extract : Except String String
  identify : Option Identification
  parse : Except String Data
deriving DecidableEq, Repr

/-- Events the orchestrator reacts to: `handleFileUpload` (with optional
file and optional selection error) and `handleReset`. -/
inductive Event
  | submitFile (key : SlotKey) (file : Option FileSpec) (selectionError : Option String)
  | resetSlot (key : SlotKey)
deriving DecidableEq, Repr

/-- Outbound notifications. -/
inductive Emit
  | onPartialData (key : SlotKey) (d : Data)
  | onComplete (agg : SlotMap (Option Data))
deriving DecidableEq, Repr

/-- Collaborator invocations recorded by a step. -/
inductive Call
  | extractCall
  | identifyCall
  | parseCall
deriving DecidableEq, Repr

/-- The component state: `currentStep`, `uploadStatus`, `parsedData`,
`errors`. -/
structure WizardState where
  currentStep : Nat
  uploadStatus : SlotMap Status
  parsedData : SlotMap (Option Data)
  errors : SlotMap (Option String)
deriving DecidableEq, Repr

/-- Initial component state (`useState` initialisers). -/
def initState : WizardState where
  currentStep := 1
  uploadStatus := ⟨.idle, .idle⟩
  parsedData := ⟨none, none⟩
  errors := ⟨none, none⟩

/-- JS truthiness of an `Option String` value (`null` and `''` are
falsy). -/
def truthyStr : Option String → Bool
  | none => false
  | some s => !(s == "")

/-- Human-readable detected name with its fallback: the identification result field name when truthy, else the phrase Unknown report type. -/
def detectedName (ident : Option Identification) : String :=
  match ident with
  | none => "Unknown report type"
  | some i =>
    match i.name with
    | none => "Unknown report type"
    | some s => if s == "" then "Unknown report type" else s

/-- Type field of the identification result (`none` for both a `null`
identification and a `null` type field). -/
def identifiedType (ident : Option Identification) : Option String :=
  ident.bind Identification.type

/-- Error message thrown on missing / insufficient extracted text. -/
def extractionFailureMsg : String :=
  "Could not extract text from PDF. The file may be image-based or corrupted."

/-- Error message thrown on an identification mismatch. -/
def mismatchMsg (actual expected : String) : String :=
  "This appears to be a " ++ actual ++ ". Please upload a " ++ expected ++
    " for this step."

/-- Start of a new upload attempt: status to `processing`, error cleared
(`parsedData` is NOT touched here — lines 61-62 of the source). -/
def beginProcessing (s : WizardState) (k : SlotKey) : WizardState :=
  { s with uploadStatus := s.uploadStatus.set k .processing
           errors := s.errors.set k none }

/-- The `catch` branch: record the message, status to `error`. -/
def failSlot (s : WizardState) (k : SlotKey) (msg : String) : WizardState :=
  { s with errors := s.errors.set k (some msg)
           uploadStatus := s.uploadStatus.set k .error }

/-- Success bookkeeping (lines 87-97 of the source): merge the parsed
payload into `parsedData`, set the status to `success`, and advance
`currentStep` when it is below the number of steps. -/
def applySuccess (s : WizardState) (k : SlotKey) (d : Data) : WizardState :=
  let newParsedData := s.parsedData.set k (some d)
  let s2 := { s with
    parsedData := newParsedData
    uploadStatus := s.uploadStatus.set k .success }
  if s2.currentStep < 2 then { s2 with currentStep := s2.currentStep + 1 } else s2

/-- Notifications emitted on a successful parse (lines 91-107 of the
source): `onPartialData` with the slot key and payload, then
`onComplete` with the freshly merged map when the other slot already
holds data. -/
def successEmits (s : WizardState) (k : SlotKey) (d : Data) : List Emit :=
  let newParsedData := s.parsedData.set k (some d)
  .onPartialData k d ::
    (if k = SlotKey.performance ∧ newParsedData.asset_allocation.isSome then
      [.onComplete newParsedData]
    else if k = SlotKey.asset_allocation ∧ newParsedData.performance.isSome then
      [.onComplete newParsedData]
    else [])

/-- Body of `handleFileUpload` once a real file is present: the `try`
block (extract → length floor → identify → validate → parse → success
bookkeeping and notifications) with the `catch` branch applied at each
throw site. -/
def processFile (s : WizardState) (k : SlotKey) (f : FileSpec) :
    WizardState × List Emit × List Call :=
  let s1 := beginProcessing s k
  match f.extract with
  | .error msg => (failSlot s1 k msg, [], [.extractCall])
  | .ok fullText =>
    if fullText = "" ∨ fullText.length < 100 then
      (failSlot s1 k extractionFailureMsg, [], [.extractCall])
    else
      let ident := f.identify
      if identifiedType ident ≠ some (expectedType k) then
        (failSlot s1 k (mismatchMsg (detectedName ident) (title k)), [],
          [.extractCall, .identifyCall])
      else
        match f.parse with
        | .error msg =>
          (failSlot s1 k msg, [], [.extractCall, .identifyCall, .parseCall])
        | .ok d =>
          (applySuccess s1 k d, successEmits s1 k d,
            [.extractCall, .identifyCall, .parseCall])

/-- One orchestrator step.  `submitFile`: the selection-error early
return, the null-file guard, then `processFile`.  `resetSlot`: clear
`parsedData` and `errors`, set the status to the JS value `null`. -/
def step (s : WizardState) : Event → WizardState × List Emit × List Call
  | .submitFile k file selErr =>
    if truthyStr selErr then
      ({ s with errors := s.errors.set k selErr
                uploadStatus := s.uploadStatus.set k .error }, [], [])
    else
      match file with
      | none => (s, [], [])
      | some f => processFile s k f
  | .resetSlot k =>
    ({ s with parsedData := s.parsedData.set k none
              uploadStatus := s.uploadStatus.set k .nullStatus
              errors := s.errors.set k none }, [], [])

/-- Run a list of events from a given state, accumulating notifications
and collaborator calls. -/
def runFrom (s : WizardState) : List Event → WizardState × List Emit × List Call
  | [] => (s, [], [])
  | ev :: evs =>
    let r := step s ev
    let rest := runFrom r.1 evs
    (rest.1, r.2.1 ++ rest.2.1, r.2.2 ++ rest.2.2)

/-- Run a list of events from the initial state. -/
def run (evs : List Event) : WizardState × List Emit × List Call :=
  runFrom initState evs

/-- Line 122 of the source:
`isComplete = parsedData.asset_allocation && parsedData.performance`. -/
def isComplete (s : WizardState) : Bool :=
  s.parsedData.asset_allocation.isSome && s.parsedData.performance.isSome

/-- A submitted file on which the whole pipeline succeeds for slot `k`. -/
def FileSpec.succeedsFor (f : FileSpec) (k : SlotKey) : Bool :=
  match f.extract, f.parse with
  | .ok t, .ok _ =>
    !(t == "") && !(t.length < 100) &&
      (identifiedType f.identify == some (expectedType k))
  | _, _ => false

def Emit.isOnComplete : Emit → Bool
  | .onComplete _ => true
  | _ => false

def Emit.isOnPartialData : Emit → Bool
  | .onPartialData _ _ => true
  | _ => false

/-- Payloads of the `onComplete` notifications in an emission list. -/
def completePayloads (l : List Emit) : List (SlotMap (Option Data)) :=
  l.filterMap fun e =>
    match e with
    | .onComplete agg => some agg
    | _ => none

/-- The other slot of the two-slot configuration. -/
def otherSlot : SlotKey → SlotKey
  | .asset_allocation => .performance
  | .performance => .asset_allocation

/-- A `submitFile` event for slot `k` that fails: either a truthy
selection error, or a file on which the pipeline fails somewhere. -/
def submissionFails (ev : Event) (k : SlotKey) : Bool :=
  match ev with
  | .submitFile k2 file selErr =>
    k2 == k &&
      (truthyStr selErr ||
        (match file with
         | none => false
         | some f => !(f.succeedsFor k)))
  | .resetSlot _ => false

/-- `needle` occurs inside `hay`. -/
def containsStr (hay needle : String) : Prop :=
  ∃ a b : String, hay = a ++ needle ++ b

/-- A 100-character extracted text (at the acceptance floor). -/
def longText : String := String.mk (List.replicate 100 'a')

/-- A 99-character extracted text (just below the floor). -/
def shortText : String := String.mk (List.replicate 99 'a')

/-- Identification result matching slot `k`. -/
def goodIdent (k : SlotKey) : Identification where
  type := some (expectedType k)
  name := some (title k)

/-- A file on which the whole pipeline succeeds for slot `k`, yielding
payload `d`. -/
def goodFile (k : SlotKey) (d : Data) : FileSpec where
  extract := .ok longText
  identify := some (goodIdent k)
  parse := .ok d

/-- Successful submission of `goodFile k d` to slot `k`. -/
def goodSubmit (k : SlotKey) (d : Data) : Event :=
  .submitFile k (some (goodFile k d)) none

/-- Trace completing both slots, in configuration order. -/
def bothGood : List Event :=
  [goodSubmit SlotKey.asset_allocation 1, goodSubmit SlotKey.performance 2]

/-- Trace completing both slots, then reporting a selection error on the
first slot. -/
def completeThenRejected : List Event :=
  bothGood ++
    [.submitFile SlotKey.asset_allocation none (some "File rejected: wrong extension")]

theorem SlotMap.get_set_self {α : Type} (m : SlotMap α) (k : SlotKey) (a : α) :
    (m.set k a).get k = a := by
  cases k <;> rfl

theorem SlotMap.get_set_ne {α : Type} (m : SlotMap α) (k k2 : SlotKey) (a : α)
    (h : k2 ≠ k) : (m.set k a).get k2 = m.get k2 := by
  cases k <;> cases k2 <;> first | rfl | exact absurd rfl h

theorem SlotMap.set_set {α : Type} (m : SlotMap α) (k : SlotKey) (a b : α) :
    (m.set k a).set k b = m.set k b := by
  cases k <;> rfl

theorem otherSlot_ne (k : SlotKey) : otherSlot k ≠ k := by
  cases k <;> simp [otherSlot]

theorem beginProcessing_parsedData (s : WizardState) (k : SlotKey) :
    (beginProcessing s k).parsedData = s.parsedData := rfl

theorem beginProcessing_uploadStatus (s : WizardState) (k : SlotKey) :
    (beginProcessing s k).uploadStatus = s.uploadStatus.set k .processing := rfl

theorem beginProcessing_errors (s : WizardState) (k : SlotKey) :
    (beginProcessing s k).errors = s.errors.set k none := rfl

theorem failSlot_parsedData (s : WizardState) (k : SlotKey) (msg : String) :
    (failSlot s k msg).parsedData = s.parsedData := rfl

theorem failSlot_uploadStatus (s : WizardState) (k : SlotKey) (msg : String) :
    (failSlot s k msg).uploadStatus = s.uploadStatus.set k .error := rfl

theorem failSlot_errors (s : WizardState) (k : SlotKey) (msg : String) :
    (failSlot s k msg).errors = s.errors.set k (some msg) := rfl

theorem applySuccess_parsedData (s : WizardState) (k : SlotKey) (d : Data) :
    (applySuccess s k d).parsedData = s.parsedData.set k (some d) := by
  simp only [applySuccess]
  split <;> rfl

theorem applySuccess_uploadStatus (s : WizardState) (k : SlotKey) (d : Data) :
    (applySuccess s k d).uploadStatus = s.uploadStatus.set k .success := by
  simp only [applySuccess]
  split <;> rfl

theorem applySuccess_errors (s : WizardState) (k : SlotKey) (d : Data) :
    (applySuccess s k d).errors = s.errors := by
  simp only [applySuccess]
  split <;> rfl

theorem step_reset (s : WizardState) (k : SlotKey) :
    step s (.resetSlot k) =
      ({ s with parsedData := s.parsedData.set k none
                uploadStatus := s.uploadStatus.set k .nullStatus
                errors := s.errors.set k none }, [], []) := rfl

theorem step_selectionError (s : WizardState) (k : SlotKey) (file : Option FileSpec)
    (selErr : Option String) (hsel : truthyStr selErr = true) :
    step s (.submitFile k file selErr) =
      ({ s with errors := s.errors.set k selErr
                uploadStatus := s.uploadStatus.set k .error }, [], []) := by
  simp [step, hsel]

theorem step_nullFile (s : WizardState) (k : SlotKey) (selErr : Option String)
    (hsel : truthyStr selErr = false) :
    step s (.submitFile k none selErr) = (s, [], []) := by
  simp [step, hsel]

theorem step_withFile (s : WizardState) (k : SlotKey) (f : FileSpec)
    (selErr : Option String) (hsel : truthyStr selErr = false) :
    step s (.submitFile k (some f) selErr) = processFile s k f := by
  simp [step, hsel]

theorem processFile_extractError (s : WizardState) (k : SlotKey) (f : FileSpec)
    (msg : String) (hx : f.extract = .error msg) :
    processFile s k f = (failSlot (beginProcessing s k) k msg, [], [.extractCall]) := by
  simp only [processFile, hx]

theorem processFile_shortText (s : WizardState) (k : SlotKey) (f : FileSpec)
    (t : String) (hx : f.extract = .ok t) (ht : t = "" ∨ t.length < 100) :
    processFile s k f =
      (failSlot (beginProcessing s k) k extractionFailureMsg, [], [.extractCall]) := by
  simp only [processFile, hx, if_pos ht]

theorem processFile_mismatch (s : WizardState) (k : SlotKey) (f : FileSpec)
    (t : String) (hx : f.extract = .ok t) (ht : ¬(t = "" ∨ t.length < 100))
    (hid : identifiedType f.identify ≠ some (expectedType k)) :
    processFile s k f =
      (failSlot (beginProcessing s k) k (mismatchMsg (detectedName f.identify) (title k)),
        [], [.extractCall, .identifyCall]) := by
  simp only [processFile, hx, if_neg ht, if_pos hid]

theorem processFile_parseError (s : WizardState) (k : SlotKey) (f : FileSpec)
    (t : String) (msg : String) (hx : f.extract = .ok t)
    (ht : ¬(t = "" ∨ t.length < 100))
    (hid : identifiedType f.identify = some (expectedType k))
    (hp : f.parse = .error msg) :
    processFile s k f =
      (failSlot (beginProcessing s k) k msg, [],
        [.extractCall, .identifyCall, .parseCall]) := by
  simp only [processFile, hx, if_neg ht, hp]
  rw [if_neg (not_not_intro hid)]

theorem processFile_success (s : WizardState) (k : SlotKey) (f : FileSpec)
    (t : String) (d : Data) (hx : f.extract = .ok t)
    (ht : ¬(t = "" ∨ t.length < 100))
    (hid : identifiedType f.identify = some (expectedType k))
    (hp : f.parse = .ok d) :
    processFile s k f =
      (applySuccess (beginProcessing s k) k d, successEmits (beginProcessing s k) k d,
        [.extractCall, .identifyCall, .parseCall]) := by
  simp only [processFile, hx, if_neg ht, hp]
  rw [if_neg (not_not_intro hid)]

theorem succeedsFor_elim (f : FileSpec) (k : SlotKey) (h : f.succeedsFor k = true) :
    ∃ t d, f.extract = .ok t ∧ ¬(t = "" ∨ t.length < 100) ∧
      identifiedType f.identify = some (expectedType k) ∧ f.parse = .ok d := by
  unfold FileSpec.succeedsFor at h
  cases hx : f.extract with
  | error m => rw [hx] at h; exact absurd h (by simp)
  | ok t =>
    cases hp : f.parse with
    | error m => rw [hx, hp] at h; exact absurd h (by simp)
    | ok d =>
      rw [hx, hp] at h
      simp only [Bool.and_eq_true, Bool.not_eq_true', beq_eq_false_iff_ne,
        decide_eq_false_iff_not, beq_iff_eq] at h
      refine ⟨t, d, rfl, ?_, h.2, rfl⟩
      rintro (h1 | h2)
      · exact h.1.1 h1
      · exact h.1.2 h2

/-- Reachable-state invariant: a slot whose status is `success` holds a
parsed payload. -/
def statusDataInv (s : WizardState) : Prop :=
  ∀ k, s.uploadStatus.get k = Status.success → (s.parsedData.get k).isSome = true

theorem statusDataInv_init : statusDataInv initState := by
  intro k hk
  cases k <;> simp [initState, SlotMap.get] at hk

theorem statusDataInv_failLike (s : WizardState) (k : SlotKey) (st : Status)
    (hst : st ≠ Status.success) (h : statusDataInv s) (s2 : WizardState)
    (hu : s2.uploadStatus = s.uploadStatus.set k st)
    (hp : s2.parsedData = s.parsedData) : statusDataInv s2 := by
  intro k2 hk2
  rw [hu] at hk2
  rw [hp]
  by_cases hkk : k2 = k
  · subst hkk
    rw [SlotMap.get_set_self] at hk2
    exact absurd hk2 hst
  · rw [SlotMap.get_set_ne _ _ _ _ hkk] at hk2
    exact h k2 hk2

theorem statusDataInv_failBegin (s : WizardState) (k : SlotKey) (msg : String)
    (h : statusDataInv s) : statusDataInv (failSlot (beginProcessing s k) k msg) :=
  statusDataInv_failLike s k .error (by decide) h _
    (by rw [failSlot_uploadStatus, beginProcessing_uploadStatus, SlotMap.set_set]) rfl

theorem statusDataInv_applySuccess (s : WizardState) (k : SlotKey) (d : Data)
    (h : statusDataInv s) : statusDataInv (applySuccess s k d) := by
  intro k2 hk2
  rw [applySuccess_parsedData]
  by_cases hkk : k2 = k
  · subst hkk
    rw [SlotMap.get_set_self]
    rfl
  · rw [SlotMap.get_set_ne _ _ _ _ hkk]
    rw [applySuccess_uploadStatus, SlotMap.get_set_ne _ _ _ _ hkk] at hk2
    exact h k2 hk2

theorem statusDataInv_step (s : WizardState) (ev : Event) (h : statusDataInv s) :
    statusDataInv (step s ev).1 := by
  cases ev with
  | resetSlot k =>
    rw [step_reset]
    intro k2 hk2
    by_cases hkk : k2 = k
    · subst hkk
      rw [show ({ s with parsedData := s.parsedData.set k2 none
                         uploadStatus := s.uploadStatus.set k2 .nullStatus
                         errors := s.errors.set k2 none } : WizardState).uploadStatus =
            s.uploadStatus.set k2 .nullStatus from rfl, SlotMap.get_set_self] at hk2
      exact absurd hk2 (by decide)
    · rw [show ({ s with parsedData := s.parsedData.set k none
                         uploadStatus := s.uploadStatus.set k .nullStatus
                         errors := s.errors.set k none } : WizardState).uploadStatus =
            s.uploadStatus.set k .nullStatus from rfl,
          SlotMap.get_set_ne _ _ _ _ hkk] at hk2
      rw [show ({ s with parsedData := s.parsedData.set k none
                         uploadStatus := s.uploadStatus.set k .nullStatus
                         errors := s.errors.set k none } : WizardState).parsedData =
            s.parsedData.set k none from rfl, SlotMap.get_set_ne _ _ _ _ hkk]
      exact h k2 hk2
  | submitFile k file selErr =>
    by_cases hsel : truthyStr selErr = true
    · rw [step_selectionError s k file selErr hsel]
      exact statusDataInv_failLike s k .error (by decide) h _ rfl rfl
    · have hs2 : truthyStr selErr = false := by
        simpa using hsel
      cases file with
      | none =>
        rw [step_nullFile s k selErr hs2]
        exact h
      | some f =>
        rw [step_withFile s k f selErr hs2]
        cases hx : f.extract with
        | error m =>
          rw [processFile_extractError s k f m hx]
          exact statusDataInv_failBegin s k m h
        | ok t =>
          by_cases hcond : t = "" ∨ t.length < 100
          · rw [processFile_shortText s k f t hx hcond]
            exact statusDataInv_failBegin s k _ h
          · by_cases hid : identifiedType f.identify ≠ some (expectedType k)
            · rw [processFile_mismatch s k f t hx hcond hid]
              exact statusDataInv_failBegin s k _ h
            · rw [not_not] at hid
              cases hpp : f.parse with
              | error m =>
                rw [processFile_parseError s k f t m hx hcond hid hpp]
                exact statusDataInv_failBegin s k m h
              | ok d =>
                rw [processFile_success s k f t d hx hcond hid hpp]
                exact statusDataInv_applySuccess _ k d
                  (statusDataInv_failLike s k .processing (by decide) h _
                    (beginProcessing_uploadStatus s k) rfl)

theorem statusDataInv_runFrom (s : WizardState) (evs : List Event)
    (h : statusDataInv s) : statusDataInv (runFrom s evs).1 := by
  induction evs generalizing s with
  | nil => exact h
  | cons ev evs ih =>
    simp only [runFrom]
    exact ih _ (statusDataInv_step s ev h)

theorem statusDataInv_run (evs : List Event) : statusDataInv (run evs).1 :=
  statusDataInv_runFrom _ _ statusDataInv_init

theorem successEmits_onComplete_iff (s : WizardState) (k : SlotKey) (d : Data) :
    ((successEmits s k d).any Emit.isOnComplete = isComplete (applySuccess s k d)) ∧
    (successEmits s k d).countP (fun e => Emit.isOnComplete e) ≤ 1 := by
  cases k with
  | asset_allocation =>
    constructor
    · rw [show isComplete (applySuccess s SlotKey.asset_allocation d) =
            ((applySuccess s SlotKey.asset_allocation d).parsedData.asset_allocation.isSome &&
             (applySuccess s SlotKey.asset_allocation d).parsedData.performance.isSome) from rfl,
          applySuccess_parsedData]
      cases hperf : s.parsedData.performance <;>
        simp [successEmits, SlotMap.set, hperf, Emit.isOnComplete]
    · simp only [successEmits]
      split
      · simp [Emit.isOnComplete, List.countP, List.countP.go]
      · split <;> simp [Emit.isOnComplete, List.countP, List.countP.go]
  | performance =>
    constructor
    · rw [show isComplete (applySuccess s SlotKey.performance d) =
            ((applySuccess s SlotKey.performance d).parsedData.asset_allocation.isSome &&
             (applySuccess s SlotKey.performance d).parsedData.performance.isSome) from rfl,
          applySuccess_parsedData]
      cases haa : s.parsedData.asset_allocation <;>
        simp [successEmits, SlotMap.set, haa, Emit.isOnComplete]
    · simp only [successEmits]
      split
      · simp [Emit.isOnComplete, List.countP, List.countP.go]
      · split <;> simp [Emit.isOnComplete, List.countP, List.countP.go]

theorem successEmits_filter_partialData (s : WizardState) (k : SlotKey) (d : Data) :
    (successEmits s k d).filter Emit.isOnPartialData = [Emit.onPartialData k d] := by
  simp only [successEmits]
  split
  · rfl
  · split <;> rfl

/-- C10: a `submitFile` call with a null file and no selection error is a
complete no-op: the state is returned unchanged, no collaborator is
invoked and no notification fires. -/
theorem null_file_noop (s : WizardState) (k : SlotKey) :
    step s (.submitFile k none none) = (s, [], []) := rfl

/-- C8 counterexample: on the initial state (slot status `'idle'`),
`handleReset` writes the JS value `null` into `uploadStatus` — not
`'idle'` — so the reset slot's status is not `idle` and resetting an
idle slot is not a no-op. -/
theorem reset_sets_null_not_idle :
    (step initState (.resetSlot SlotKey.asset_allocation)).1.uploadStatus.asset_allocation =
      Status.nullStatus ∧
    Status.nullStatus ≠ Status.idle ∧
    (step initState (.resetSlot SlotKey.asset_allocation)).1 ≠ initState := by
  exact ⟨rfl, by decide, by decide⟩

/-- C8 (amended): `handleReset` sets the named slot's status to the JS
`null` value (not the `'idle'` string) and clears `parsedData` and
`lastError`; it emits nothing, and applying it again to the
already-reset slot is a no-op.  It never raises (the handler is a total
function). -/
theorem reset_clears_slot (s : WizardState) (k : SlotKey) :
    (step s (.resetSlot k)).1.uploadStatus.get k = Status.nullStatus ∧
    (step s (.resetSlot k)).1.parsedData.get k = none ∧
    (step s (.resetSlot k)).1.errors.get k = none ∧
    (step s (.resetSlot k)).2.1 = [] ∧
    step (step s (.resetSlot k)).1 (.resetSlot k) = step s (.resetSlot k) :=
  ⟨SlotMap.get_set_self _ _ _, SlotMap.get_set_self _ _ _, SlotMap.get_set_self _ _ _,
    rfl, by cases k <;> rfl⟩

/-- C3 counterexample: complete the `asset_allocation` slot, complete
`performance`, then report a selection error on `asset_allocation`: its
`parsedData` (never cleared) and its `lastError` are then both set, so
the mutual-exclusion part of the claim fails on the code. -/
theorem parsedData_error_coexist :
    (run completeThenRejected).1.parsedData.asset_allocation = some 1 ∧
    (run completeThenRejected).1.errors.asset_allocation =
      some "File rejected: wrong extension" := by
  exact ⟨rfl, rfl⟩

/-- C3 (amended): a new upload attempt (the transition into
`processing`) clears only `lastError` and leaves `parsedData` untouched;
a reset clears both.  Consequently `parsedData` and `lastError` are not
mutually exclusive in general (see the counterexample). -/
theorem upload_attempt_clears_error_only (s : WizardState) (k : SlotKey) :
    (beginProcessing s k).errors.get k = none ∧
    (beginProcessing s k).parsedData = s.parsedData ∧
    (step s (.resetSlot k)).1.parsedData.get k = none ∧
    (step s (.resetSlot k)).1.errors.get k = none :=
  ⟨SlotMap.get_set_self _ _ _, rfl, SlotMap.get_set_self _ _ _, SlotMap.get_set_self _ _ _⟩

/-- C2 counterexample: after completing both slots and then reporting a
selection error on `asset_allocation`, the derived `isComplete` (which
reads `parsedData`, line 122) is still true although the slot's status
is `error`, so `isComplete` is not equivalent to all statuses being
`success`. -/
theorem isComplete_without_all_success :
    isComplete (run completeThenRejected).1 = true ∧
    (run completeThenRejected).1.uploadStatus.asset_allocation = Status.error := by
  exact ⟨rfl, rfl⟩

/-- C2 (amended): `isComplete` is defined as both slots holding
`parsedData`; in every reachable state all-statuses-`success` still
implies `isComplete` (a successful slot always holds data), but the
converse fails (see the counterexample). -/
theorem allSuccess_implies_isComplete (evs : List Event)
    (h : ∀ k, (run evs).1.uploadStatus.get k = Status.success) :
    isComplete (run evs).1 = true := by
  have hinv := statusDataInv_run evs
  have ha := hinv SlotKey.asset_allocation (h SlotKey.asset_allocation)
  have hp := hinv SlotKey.performance (h SlotKey.performance)
  show (((run evs).1.parsedData.get SlotKey.asset_allocation).isSome &&
      ((run evs).1.parsedData.get SlotKey.performance).isSome) = true
  rw [ha, hp]
  rfl

/-- Witness for `allSuccess_implies_isComplete`: the two-good-uploads
trace has both statuses `success` and is complete. -/
theorem allSuccess_implies_isComplete_witness :
    isComplete (run bothGood).1 = true :=
  allSuccess_implies_isComplete bothGood (by intro k; cases k <;> rfl)

/-- C1 counterexample: after both slots are complete, a further
successful re-upload to `performance` emits `onComplete` again even
though `isComplete` was already true immediately before the transition —
the notification is not restricted to false→true transitions of
`isComplete`. -/
theorem onComplete_refires_after_complete :
    isComplete (run bothGood).1 = true ∧
    ((step (run bothGood).1 (goodSubmit SlotKey.performance 3)).2.1.any
      Emit.isOnComplete) = true :=
  ⟨rfl, rfl⟩

/-- C1 (amended): `onComplete` is emitted by a step exactly when the
step is a successful parse (it emits `onPartialData`) and `isComplete`
holds immediately after the transition — regardless of whether
`isComplete` already held before, so every successful re-upload of one
slot while the other holds data re-fires it.  At most one `onComplete`
is emitted per step. -/
theorem onComplete_iff_partial_and_complete (s : WizardState) (ev : Event) :
    ((step s ev).2.1.any Emit.isOnComplete =
      ((step s ev).2.1.any Emit.isOnPartialData && isComplete (step s ev).1)) ∧
    (step s ev).2.1.countP (fun e => Emit.isOnComplete e) ≤ 1 := by
  cases ev with
  | resetSlot k =>
    rw [step_reset]
    exact ⟨rfl, Nat.zero_le 1⟩
  | submitFile k file selErr =>
    by_cases hsel : truthyStr selErr = true
    · rw [step_selectionError s k file selErr hsel]
      exact ⟨rfl, Nat.zero_le 1⟩
    · have hs2 : truthyStr selErr = false := by simpa using hsel
      cases file with
      | none =>
        rw [step_nullFile s k selErr hs2]
        exact ⟨rfl, Nat.zero_le 1⟩
      | some f =>
        rw [step_withFile s k f selErr hs2]
        cases hx : f.extract with
        | error m =>
          rw [processFile_extractError s k f m hx]
          exact ⟨rfl, Nat.zero_le 1⟩
        | ok t =>
          by_cases hcond : t = "" ∨ t.length < 100
          · rw [processFile_shortText s k f t hx hcond]
            exact ⟨rfl, Nat.zero_le 1⟩
          · by_cases hid : identifiedType f.identify ≠ some (expectedType k)
            · rw [processFile_mismatch s k f t hx hcond hid]
              exact ⟨rfl, Nat.zero_le 1⟩
            · rw [not_not] at hid
              cases hpp : f.parse with
              | error m =>
                rw [processFile_parseError s k f t m hx hcond hid hpp]
                exact ⟨rfl, Nat.zero_le 1⟩
              | ok d =>
                rw [processFile_success s k f t d hx hcond hid hpp]
                have hpart : (successEmits (beginProcessing s k) k d).any
                    Emit.isOnPartialData = true := rfl
                rw [hpart, Bool.true_and]
                exact successEmits_onComplete_iff (beginProcessing s k) k d

theorem containsStr_mismatch_expected (a e : String) :
    containsStr (mismatchMsg a e) e :=
  ⟨"This appears to be a " ++ a ++ ". Please upload a ", " for this step.", rfl⟩

theorem containsStr_mismatch_actual (a e : String) :
    containsStr (mismatchMsg a e) a :=
  ⟨"This appears to be a ", ". Please upload a " ++ e ++ " for this step.", by
    simp [mismatchMsg, String.append_assoc]⟩

/-- C4: when identification does not match the slot's expected type
(including a null identification or null type), the slot ends in `error`
with the mismatch message — which names the expected document title and
the detected human-readable name (`detectedName` yields the phrase
"Unknown report type" when none is available) — and `parseReport` is
never invoked. -/
theorem mismatch_rejected_without_parse (s : WizardState) (k : SlotKey)
    (f : FileSpec) (t : String) (hx : f.extract = .ok t)
    (hlen : 100 ≤ t.length)
    (hid : identifiedType f.identify ≠ some (expectedType k)) :
    (step s (.submitFile k (some f) none)).1.uploadStatus.get k = Status.error ∧
    (step s (.submitFile k (some f) none)).1.errors.get k =
      some (mismatchMsg (detectedName f.identify) (title k)) ∧
    containsStr (mismatchMsg (detectedName f.identify) (title k)) (title k) ∧
    containsStr (mismatchMsg (detectedName f.identify) (title k))
      (detectedName f.identify) ∧
    Call.parseCall ∉ (step s (.submitFile k (some f) none)).2.2 := by
  have ht : ¬(t = "" ∨ t.length < 100) := by
    rintro (rfl | hlt)
    · simp at hlen
    · omega
  rw [step_withFile s k f none rfl, processFile_mismatch s k f t hx ht hid]
  refine ⟨?_, ?_, containsStr_mismatch_expected _ _, containsStr_mismatch_actual _ _, ?_⟩
  · rw [failSlot_uploadStatus]
    exact SlotMap.get_set_self _ _ _
  · rw [failSlot_errors]
    exact SlotMap.get_set_self _ _ _
  · simp

/-- A performance-identified file submitted to the asset-allocation
slot. -/
def mismatchFile : FileSpec where
  extract := .ok longText
  identify := some (goodIdent SlotKey.performance)
  parse := .ok 7

/-- Witness for `mismatch_rejected_without_parse`: a file identified
as a Performance Report submitted to the `asset_allocation` slot is
rejected with the full mismatch message and the parser is not called. -/
theorem mismatch_rejected_without_parse_witness :
    (step initState (.submitFile SlotKey.asset_allocation (some mismatchFile)
        none)).1.errors.get SlotKey.asset_allocation =
      some (mismatchMsg "Performance Report" "Asset Allocation Report") ∧
    Call.parseCall ∉
      (step initState (.submitFile SlotKey.asset_allocation (some mismatchFile)
        none)).2.2 := by
  have h := mismatch_rejected_without_parse initState SlotKey.asset_allocation
    mismatchFile longText rfl (by decide) (by decide)
  exact ⟨h.2.1, h.2.2.2.2⟩

/-- C6: with extraction succeeding, a `fullText` of length at most 99
drives the slot to `error` with the extraction-failure message and
identification is not run, while a `fullText` of length at least 100
proceeds to identification. -/
theorem extraction_floor_boundary (s : WizardState) (k : SlotKey) (f : FileSpec)
    (t : String) (hx : f.extract = .ok t) :
    (t.length ≤ 99 →
      (step s (.submitFile k (some f) none)).1.uploadStatus.get k = Status.error ∧
      (step s (.submitFile k (some f) none)).1.errors.get k =
        some extractionFailureMsg ∧
      Call.identifyCall ∉ (step s (.submitFile k (some f) none)).2.2) ∧
    (100 ≤ t.length →
      Call.identifyCall ∈ (step s (.submitFile k (some f) none)).2.2) := by
  constructor
  · intro hle
    rw [step_withFile s k f none rfl,
      processFile_shortText s k f t hx (Or.inr (by omega))]
    refine ⟨?_, ?_, by simp⟩
    · rw [failSlot_uploadStatus]
      exact SlotMap.get_set_self _ _ _
    · rw [failSlot_errors]
      exact SlotMap.get_set_self _ _ _
  · intro hge
    have ht : ¬(t = "" ∨ t.length < 100) := by
      rintro (rfl | h2)
      · simp at hge
      · omega
    rw [step_withFile s k f none rfl]
    by_cases hid : identifiedType f.identify ≠ some (expectedType k)
    · rw [processFile_mismatch s k f t hx ht hid]
      simp
    · rw [not_not] at hid
      cases hpp : f.parse with
      | error m =>
        rw [processFile_parseError s k f t m hx ht hid hpp]
        simp
      | ok d =>
        rw [processFile_success s k f t d hx ht hid hpp]
        simp

/-- A 99-character extraction result for the asset-allocation slot. -/
def shortFile : FileSpec where
  extract := .ok shortText
  identify := some (goodIdent SlotKey.asset_allocation)
  parse := .ok 3

/-- A 100-character extraction result for the asset-allocation slot. -/
def atFloorFile : FileSpec where
  extract := .ok longText
  identify := some (goodIdent SlotKey.asset_allocation)
  parse := .ok 4

/-- Witness for `extraction_floor_boundary`: 99 characters fail with the
extraction message; 100 characters reach identification. -/
theorem extraction_floor_boundary_witness :
    (step initState (.submitFile SlotKey.asset_allocation (some shortFile)
        none)).1.errors.get SlotKey.asset_allocation = some extractionFailureMsg ∧
    Call.identifyCall ∈
      (step initState (.submitFile SlotKey.asset_allocation (some atFloorFile)
        none)).2.2 := by
  refine ⟨((extraction_floor_boundary initState SlotKey.asset_allocation shortFile
      shortText rfl).1 (by decide)).2.1,
    (extraction_floor_boundary initState SlotKey.asset_allocation atFloorFile
      longText rfl).2 (by decide)⟩

theorem run_two_emits (e1 e2 : Event) :
    (run [e1, e2]).2.1 =
      (step initState e1).2.1 ++ (step (step initState e1).1 e2).2.1 := by
  simp [run, runFrom]

/-- C5: for any two files on which the pipeline succeeds for their
respective slots, submitting them in either order fires `onComplete`
exactly once, both orders with the same aggregated payload — the map
carrying both parsed payloads. -/
theorem completion_order_independent (fa fp : FileSpec)
    (ha : fa.succeedsFor SlotKey.asset_allocation = true)
    (hp : fp.succeedsFor SlotKey.performance = true) :
    ∃ da dp,
      fa.parse = .ok da ∧ fp.parse = .ok dp ∧
      completePayloads (run [.submitFile SlotKey.asset_allocation (some fa) none,
        .submitFile SlotKey.performance (some fp) none]).2.1 =
        [⟨some da, some dp⟩] ∧
      completePayloads (run [.submitFile SlotKey.performance (some fp) none,
        .submitFile SlotKey.asset_allocation (some fa) none]).2.1 =
        [⟨some da, some dp⟩] := by
  obtain ⟨ta, da, hxa, hta, hia, hpa⟩ := succeedsFor_elim fa _ ha
  obtain ⟨tp, dp, hxp, htp, hip, hpp⟩ := succeedsFor_elim fp _ hp
  refine ⟨da, dp, hpa, hpp, ?_, ?_⟩
  · rw [run_two_emits,
      step_withFile initState SlotKey.asset_allocation fa none rfl,
      processFile_success initState SlotKey.asset_allocation fa ta da hxa hta hia hpa,
      step_withFile _ SlotKey.performance fp none rfl,
      processFile_success _ SlotKey.performance fp tp dp hxp htp hip hpp]
    simp [completePayloads, successEmits, applySuccess, beginProcessing, initState,
      SlotMap.set]
  · rw [run_two_emits,
      step_withFile initState SlotKey.performance fp none rfl,
      processFile_success initState SlotKey.performance fp tp dp hxp htp hip hpp,
      step_withFile _ SlotKey.asset_allocation fa none rfl,
      processFile_success _ SlotKey.asset_allocation fa ta da hxa hta hia hpa]
    simp [completePayloads, successEmits, applySuccess, beginProcessing, initState,
      SlotMap.set]

/-- Witness for `completion_order_independent`: the two concrete good
files complete the session in either order with the same payload. -/
theorem completion_order_independent_witness :
    ∃ da dp,
      (goodFile SlotKey.asset_allocation 1).parse = .ok da ∧
      (goodFile SlotKey.performance 2).parse = .ok dp ∧
      completePayloads (run [.submitFile SlotKey.asset_allocation
          (some (goodFile SlotKey.asset_allocation 1)) none,
        .submitFile SlotKey.performance
          (some (goodFile SlotKey.performance 2)) none]).2.1 =
        [⟨some da, some dp⟩] ∧
      completePayloads (run [.submitFile SlotKey.performance
          (some (goodFile SlotKey.performance 2)) none,
        .submitFile SlotKey.asset_allocation
          (some (goodFile SlotKey.asset_allocation 1)) none]).2.1 =
        [⟨some da, some dp⟩] :=
  completion_order_independent (goodFile SlotKey.asset_allocation 1)
    (goodFile SlotKey.performance 2) (by decide) (by decide)

/-- C7: when extraction yields sufficient text, identification matches
the slot and parsing succeeds, the slot ends in `success` with
`parsedData` equal to the parser's output, and exactly one
`onPartialData` notification — carrying that slot key and payload — is
emitted for the submission. -/
theorem success_sets_data_and_notifies (s : WizardState) (k : SlotKey)
    (f : FileSpec) (t : String) (d : Data) (hx : f.extract = .ok t)
    (hlen : 100 ≤ t.length)
    (hid : identifiedType f.identify = some (expectedType k))
    (hp : f.parse = .ok d) :
    (step s (.submitFile k (some f) none)).1.uploadStatus.get k = Status.success ∧
    (step s (.submitFile k (some f) none)).1.parsedData.get k = some d ∧
    (step s (.submitFile k (some f) none)).2.1.filter Emit.isOnPartialData =
      [Emit.onPartialData k d] := by
  have ht : ¬(t = "" ∨ t.length < 100) := by
    rintro (rfl | h2)
    · simp at hlen
    · omega
  rw [step_withFile s k f none rfl, processFile_success s k f t d hx ht hid hp]
  refine ⟨?_, ?_, successEmits_filter_partialData _ _ _⟩
  · rw [applySuccess_uploadStatus]
    exact SlotMap.get_set_self _ _ _
  · rw [applySuccess_parsedData]
    exact SlotMap.get_set_self _ _ _

/-- Witness for `success_sets_data_and_notifies`: a concrete good file
for the `asset_allocation` slot. -/
theorem success_sets_data_and_notifies_witness :
    (step initState (.submitFile SlotKey.asset_allocation
        (some (goodFile SlotKey.asset_allocation 5)) none)).1.uploadStatus.get
      SlotKey.asset_allocation = Status.success ∧
    (step initState (.submitFile SlotKey.asset_allocation
        (some (goodFile SlotKey.asset_allocation 5)) none)).1.parsedData.get
      SlotKey.asset_allocation = some 5 ∧
    (step initState (.submitFile SlotKey.asset_allocation
        (some (goodFile SlotKey.asset_allocation 5)) none)).2.1.filter
      Emit.isOnPartialData = [Emit.onPartialData SlotKey.asset_allocation 5] :=
  success_sets_data_and_notifies initState SlotKey.asset_allocation
    (goodFile SlotKey.asset_allocation 5) longText 5 rfl (by decide) (by decide) rfl

theorem failBegin_props (s : WizardState) (k : SlotKey) (msg : String) :
    (failSlot (beginProcessing s k) k msg).uploadStatus.get k = Status.error ∧
    (failSlot (beginProcessing s k) k msg).errors.get k = some msg ∧
    (failSlot (beginProcessing s k) k msg).uploadStatus.get (otherSlot k) =
      s.uploadStatus.get (otherSlot k) ∧
    (failSlot (beginProcessing s k) k msg).parsedData.get (otherSlot k) =
      s.parsedData.get (otherSlot k) ∧
    (failSlot (beginProcessing s k) k msg).errors.get (otherSlot k) =
      s.errors.get (otherSlot k) := by
  have hne := otherSlot_ne k
  refine ⟨?_, ?_, ?_, rfl, ?_⟩
  · rw [failSlot_uploadStatus, beginProcessing_uploadStatus, SlotMap.set_set]
    exact SlotMap.get_set_self _ _ _
  · rw [failSlot_errors, beginProcessing_errors, SlotMap.set_set]
    exact SlotMap.get_set_self _ _ _
  · rw [failSlot_uploadStatus, beginProcessing_uploadStatus, SlotMap.set_set]
    exact SlotMap.get_set_ne _ _ _ _ hne
  · rw [failSlot_errors, beginProcessing_errors, SlotMap.set_set]
    exact SlotMap.get_set_ne _ _ _ _ hne

/-- C9: every failing submission (selection error, extraction failure or
short text, type mismatch, parse failure) is handled locally: the
affected slot ends in `error` with a recorded message, and the other
slot's status, data and error are untouched.  No exception escapes: the
step function is total. -/
theorem failure_handled_locally (s : WizardState) (ev : Event) (k : SlotKey)
    (h : submissionFails ev k = true) :
    (step s ev).1.uploadStatus.get k = Status.error ∧
    ((step s ev).1.errors.get k).isSome = true ∧
    (step s ev).1.uploadStatus.get (otherSlot k) = s.uploadStatus.get (otherSlot k) ∧
    (step s ev).1.parsedData.get (otherSlot k) = s.parsedData.get (otherSlot k) ∧
    (step s ev).1.errors.get (otherSlot k) = s.errors.get (otherSlot k) := by
  have hne := otherSlot_ne k
  cases ev with
  | resetSlot k2 => exact absurd h (by simp [submissionFails])
  | submitFile k2 file selErr =>
    simp only [submissionFails, Bool.and_eq_true, beq_iff_eq] at h
    obtain ⟨rfl, h2⟩ := h
    by_cases hsel : truthyStr selErr = true
    · rw [step_selectionError s k2 file selErr hsel]
      have hsome : selErr.isSome = true := by
        cases selErr with
        | none => simp [truthyStr] at hsel
        | some m => rfl
      refine ⟨SlotMap.get_set_self _ _ _, ?_, SlotMap.get_set_ne _ _ _ _ hne, rfl,
        SlotMap.get_set_ne _ _ _ _ hne⟩
      rw [SlotMap.get_set_self]
      exact hsome
    · have hs2 : truthyStr selErr = false := by simpa using hsel
      rw [hs2, Bool.false_or] at h2
      cases file with
      | none => simp at h2
      | some f =>
        rw [Bool.not_eq_true'] at h2
        rw [step_withFile s k2 f selErr hs2]
        cases hx : f.extract with
        | error m =>
          rw [processFile_extractError s k2 f m hx]
          obtain ⟨p1, p2, p3, p4, p5⟩ := failBegin_props s k2 m
          exact ⟨p1, by rw [p2]; rfl, p3, p4, p5⟩
        | ok t =>
          by_cases hcond : t = "" ∨ t.length < 100
          · rw [processFile_shortText s k2 f t hx hcond]
            obtain ⟨p1, p2, p3, p4, p5⟩ := failBegin_props s k2 extractionFailureMsg
            exact ⟨p1, by rw [p2]; rfl, p3, p4, p5⟩
          · by_cases hid : identifiedType f.identify ≠ some (expectedType k2)
            · rw [processFile_mismatch s k2 f t hx hcond hid]
              obtain ⟨p1, p2, p3, p4, p5⟩ := failBegin_props s k2
                (mismatchMsg (detectedName f.identify) (title k2))
              exact ⟨p1, by rw [p2]; rfl, p3, p4, p5⟩
            · rw [not_not] at hid
              cases hpp : f.parse with
              | error m =>
                rw [processFile_parseError s k2 f t m hx hcond hid hpp]
                obtain ⟨p1, p2, p3, p4, p5⟩ := failBegin_props s k2 m
                exact ⟨p1, by rw [p2]; rfl, p3, p4, p5⟩
              | ok d =>
                exfalso
                push_neg at hcond
                have hsucc : f.succeedsFor k2 = true := by
                  unfold FileSpec.succeedsFor
                  rw [hx, hpp]
                  simp only [Bool.and_eq_true, Bool.not_eq_true',
                    beq_eq_false_iff_ne, decide_eq_false_iff_not, beq_iff_eq]
                  exact ⟨⟨hcond.1, by omega⟩, hid⟩
                rw [hsucc] at h2
                cases h2

/-- Witness for `failure_handled_locally`: a selection error reported on
the `asset_allocation` slot of the initial state. -/
theorem failure_handled_locally_witness :
    (step initState (.submitFile SlotKey.asset_allocation none
        (some "Invalid file type"))).1.uploadStatus.get SlotKey.asset_allocation =
      Status.error ∧
    ((step initState (.submitFile SlotKey.asset_allocation none
        (some "Invalid file type"))).1.errors.get SlotKey.asset_allocation).isSome =
      true ∧
    (step initState (.submitFile SlotKey.asset_allocation none
        (some "Invalid file type"))).1.uploadStatus.get SlotKey.performance =
      initState.uploadStatus.get SlotKey.performance ∧
    (step initState (.submitFile SlotKey.asset_allocation none
        (some "Invalid file type"))).1.parsedData.get SlotKey.performance =
      initState.parsedData.get SlotKey.performance ∧
    (step initState (.submitFile SlotKey.asset_allocation none
        (some "Invalid file type"))).1.errors.get SlotKey.performance =
      initState.errors.get SlotKey.performance :=
  failure_handled_locally initState
    (.submitFile SlotKey.asset_allocation none (some "Invalid file type"))
    SlotKey.asset_allocation (by decide)

end UploadWizard
